import Mathlib

/-!
Shallow embedding of `IdealLed.py` (BLE kitchen-hood driver): the `State`
value type, the two payload decoders (`replace_from_tx_char`,
`replace_from_manufacture_data`), the range-check and bit-test helpers, the
discovery predicate `device_filter`, the characteristic callback with its
keycode gate, the reference-counted connection manager, and `send_command`'s
optimistic state update.

Bytes are modelled as `Nat` (values `< 256` in the real program), byte
strings as `List Nat`, Python integers as `Int`.  Python exceptions are
modelled by `Option`/explicit result types.
-/

namespace IdealLed

/-- Hex string of the light-on command (`COMMAND_LIGHT_ON_HEX`). -/
def COMMAND_LIGHT_ON_HEX : String := "84dd5042374150897ac82f39110968a8"

/-- Hex string of the light-off command (`COMMAND_LIGHT_OFF_HEX`). -/
def COMMAND_LIGHT_OFF_HEX : String := "79d1dba40919c246a8580ae7d11b7884"

/-- The fixed advertised device name (`DEVICE_NAME`). -/
def DEVICE_NAME : String := "IDEAL_LED"

/-- The fixed 8-byte announce tag `b"HOODFJAR"` (the source constant whose
name ends in the word PREFIX; renamed here). -/
def ANNOUNCE_TAG : List Nat := [72, 79, 79, 68, 70, 74, 65, 82]

/-- `ANNOUNCE_MANUFACTURER = int.from_bytes(b"HO", "little")`:
`72 + 79 * 256`. -/
def ANNOUNCE_MANUFACTURER : Nat := 72 + 79 * 256

/-- Modelled from the spec: the fixed service UUID constant `UUID_SERVICE`
referenced by `device_filter` is declared outside `src/` (the spec fixes only
that it is a single fixed UUID; `device_filter` compares its string form for
membership in the advertised set).  The concrete value is irrelevant to every
theorem below, which quantify over the advertised set. -/
def UUID_SERVICE : String := "d44bc439-abfd-45a2-b575-925416129600"

/-- The device state dataclass (`State`), all defaults zero/false. -/
structure State where
  light_on : Bool := false
  after_cooking_fan_speed : Int := 0
  after_cooking_on : Bool := false
  carbon_filter_available : Bool := false
  fan_speed : Int := 0
  grease_filter_full : Bool := false
  carbon_filter_full : Bool := false
  dim_level : Int := 0
  periodic_venting : Int := 0
  periodic_venting_on : Bool := false
  rssi : Int := 0
  deriving Repr, DecidableEq

/-- `_range_check_dim(value, fallback)`: keep `value` when `0 <= value <= 100`,
otherwise the fallback. -/
def _range_check_dim (value fallback : Int) : Int :=
  if 0 ≤ value ∧ value ≤ 100 then value else fallback

/-- `_range_check_period(value, fallback)`: keep `value` when
`0 <= value < 60`, otherwise the fallback. -/
def _range_check_period (value fallback : Int) : Int :=
  if 0 ≤ value ∧ value < 60 then value else fallback

/-- `_bittest(data, bit) = (data & (1 << bit)) != 0`. -/
def _bittest (data bit : Nat) : Bool :=
  data &&& (1 <<< bit) ≠ 0

/-- Python slice `data[a:b]` on a byte string (never raises). -/
def pySlice (data : List Nat) (a b : Nat) : List Nat :=
  (data.drop a).take (b - a)

/-- `bytes.decode("ASCII")`: succeeds iff every byte is `< 128`; the decoded
string is the same code sequence.  A failure is `UnicodeDecodeError`. -/
def pyDecodeAscii (data : List Nat) : Option (List Nat) :=
  if data.all (fun c => c < 128) then some data else none

/-- ASCII decimal digit test. -/
def isDigit (c : Nat) : Bool :=
  48 ≤ c && c ≤ 57

/-- Characters `int(str)` strips: ASCII whitespace plus `\x1c`-`\x1f`. -/
def isPyWs (c : Nat) : Bool :=
  (9 ≤ c && c ≤ 13) || c == 32 || (28 ≤ c && c ≤ 31)

/-- Strip leading and trailing whitespace, as `int(str)` does. -/
def stripWs (l : List Nat) : List Nat :=
  ((l.dropWhile isPyWs).reverse.dropWhile isPyWs).reverse

/-- Digit/underscore body of a Python integer literal:
nonempty, every character a digit or `_`, starting and ending with a digit,
with no two adjacent underscores. -/
def duOk (l : List Nat) : Bool :=
  !l.isEmpty &&
  l.all (fun c => isDigit c || c == 95) &&
  !(l.head? == some 95) &&
  !(l.getLast? == some 95) &&
  (l.zip l.tail).all (fun p => !(p.1 == 95 && p.2 == 95))

/-- Decimal value of a digit string (underscores removed beforehand). -/
def digitsVal (l : List Nat) : Nat :=
  l.foldl (fun acc c => acc * 10 + (c - 48)) 0

/-- Value of a digit/underscore body, or `none` when ill-formed. -/
def duVal (l : List Nat) : Option Nat :=
  if duOk l then some (digitsVal (l.filter (fun c => c != 95))) else none

/-- `int(str)` on an ASCII character sequence: strip whitespace, optional
single sign, then digits possibly separated by single underscores; `none`
models `ValueError`. -/
def pyInt (l : List Nat) : Option Int :=
  let t := stripWs l
  if t.head? = some 43 then (duVal (t.drop 1)).map (fun n => (n : Int))
  else if t.head? = some 45 then (duVal (t.drop 1)).map (fun n => -(n : Int))
  else (duVal t).map (fun n => (n : Int))

/-- `State.replace_from_tx_char(databytes)`: ASCII-decode the payload and
replace the fields at the fixed offsets.  `none` models any raised exception
(`UnicodeDecodeError`, `IndexError`, `ValueError`), after which the prior
state object is untouched. -/
def State.replace_from_tx_char (s : State) (databytes : List Nat) : Option State :=
  match pyDecodeAscii databytes with
  | none => none
  | some data =>
    match data[4]?, data[5]?, data[6]?, data[7]?, data[8]?, data[9]? with
    | some c4, some c5, some c6, some c7, some c8, some c9 =>
      match pyInt [c4], pyInt (pySlice data 10 13), pyInt (pySlice data 13 15) with
      | some fan, some dim, some pv =>
        some { s with
          fan_speed := fan
          light_on := c5 == 76
          after_cooking_on := c6 == 78
          carbon_filter_available := c7 == 67
          grease_filter_full := c8 == 70
          carbon_filter_full := c9 == 75
          dim_level := _range_check_dim dim s.dim_level
          periodic_venting := _range_check_period pv s.periodic_venting }
      | _, _, _ => none
    | _, _, _, _, _, _ => none

/-- `State.replace_from_manufacture_data(data)`: raw-byte decode of the
broadcast payload, with the light-on/dim-level override rule.  `none` models
`IndexError` on a short payload.  (The only caller passes `rssi` through
`**changes`; that is applied by `detection_callback_raw` below.) -/
def State.replace_from_manufacture_data (s : State) (data : List Nat) : Option State :=
  match (data[10]? : Option Nat), (data[13]? : Option Nat), (data[8]? : Option Nat),
      (data[9]? : Option Nat), (data[11]? : Option Nat), (data[14]? : Option Nat) with
  | some d10, some d13, some d8, some d9, some d11, some d14 =>
    let light_on0 := _bittest d10 0
    let dim_level := _range_check_dim (d13 : Int) s.dim_level
    let light_on :=
      if light_on0 = true ∧ s.light_on = false ∧ dim_level < s.dim_level then false
      else light_on0
    some { s with
      fan_speed := (d8 : Int)
      after_cooking_fan_speed := (d9 : Int)
      light_on := light_on
      after_cooking_on := _bittest d10 1
      periodic_venting_on := _bittest d10 2
      grease_filter_full := _bittest d11 0
      carbon_filter_full := _bittest d11 1
      carbon_filter_available := _bittest d11 2
      dim_level := dim_level
      periodic_venting := _range_check_period (d14 : Int) s.periodic_venting }
  | _, _, _, _, _, _ => none

/-- Advertised identity of a discovered peripheral (`BLEDevice.name` may be
absent). -/
structure BLEDevice where
  name : Option String
  deriving Repr, DecidableEq

/-- The advertisement fields `device_filter` inspects. -/
structure AdvertisementData where
  service_uuids : List String
  manufacturer_data : List (Nat × List Nat)
  deriving Repr, DecidableEq

/-- `dict.get(key, default)` on the manufacturer-data mapping. -/
def dictGet (d : List (Nat × List Nat)) (k : Nat) (dflt : List Nat) : List Nat :=
  match d.lookup k with
  | some v => v
  | none => dflt

/-- `device_filter(device, advertisement_data)`. -/
def device_filter (device : BLEDevice) (advertisement_data : AdvertisementData) : Bool :=
  if UUID_SERVICE ∈ advertisement_data.service_uuids then true
  else if device.name = some DEVICE_NAME then true
  else if (ANNOUNCE_TAG.drop 2).isPrefixOf
      (dictGet advertisement_data.manufacturer_data ANNOUNCE_MANUFACTURER []) then true
  else false

/-- Outcome of `Device.characteristic_callback`: the payload failed the
keycode gate and was dropped with a warning log, the decode raised to the
caller, or `self.state` was replaced. -/
inductive CharCbResult where
  | dropped
  | raised
  | updated (s : State)
  deriving Repr, DecidableEq

/-- `Device.characteristic_callback(data)` acting on the current state.
`self._keycode` is the `keycode` argument (default `b"1234"`). -/
def characteristic_callback (keycode : List Nat) (s : State) (data : List Nat) :
    CharCbResult :=
  if pySlice data 0 4 ≠ keycode then .dropped
  else
    match s.replace_from_tx_char data with
    | none => .raised
    | some s2 => .updated s2

/-- The value of `self.state` after `characteristic_callback` returns or
raises: only the `updated` outcome replaces it. -/
def charCbState (keycode : List Nat) (s : State) (data : List Nat) : State :=
  match characteristic_callback keycode s data with
  | .updated s2 => s2
  | _ => s

/-- Outcome of `Device.detection_callback_raw`: foreign announce tag ignored,
`IndexError` raised on a short payload, or `self.state` replaced (with `rssi`
merged through `**changes`). -/
inductive DetCbResult where
  | ignored
  | raised
  | updated (s : State)
  deriving Repr, DecidableEq

/-- `Device.detection_callback_raw(data, rssi)` acting on the current state. -/
def detection_callback_raw (s : State) (data : List Nat) (rssi : Int) :
    DetCbResult :=
  if pySlice data 0 8 ≠ ANNOUNCE_TAG then .ignored
  else
    match s.replace_from_manufacture_data data with
    | none => .raised
    | some s2 => .updated { s2 with rssi := rssi }

/-- The value of `self.state` after `detection_callback_raw`. -/
def detCbState (s : State) (data : List Nat) (rssi : Int) : State :=
  match detection_callback_raw s data rssi with
  | .updated s2 => s2
  | _ => s

/-- The error taxonomy raised by the connection and transport operations:
`IdealLedTimeout` (from `asyncio.TimeoutError`) and `IdealLedBleakError`
(from `BleakError`). -/
inductive IdealLedErr where
  | idealLedTimeout
  | idealLedBleakError
  deriving Repr, DecidableEq

/-- Outcome of a physical transport operation (opening the link, or a
GATT write), supplied by the abstract radio link. -/
inductive LinkOutcome where
  | ok
  | timeout
  | bleakErr
  deriving Repr, DecidableEq

/-- Connection-manager bookkeeping of a `Device`: whether `self._client` is
set (the physical link handle exists) and `self._client_count`. -/
structure ConnState where
  client : Bool
  client_count : Int
  deriving Repr, DecidableEq

/-- The entry half of `Device.connect` (under `self._lock`): when no client
exists, open the physical link — on `asyncio.TimeoutError` raise
`IdealLedTimeout`, on `BleakError` raise `IdealLedBleakError`, leaving the
bookkeeping untouched; otherwise reuse the link.  On success increment
`self._client_count`. -/
def connect_enter (c : ConnState) (outcome : LinkOutcome) :
    ConnState × Option IdealLedErr :=
  if c.client then ({ c with client_count := c.client_count + 1 }, none)
  else
    match outcome with
    | .ok => ({ client := true, client_count := c.client_count + 1 }, none)
    | .timeout => (c, some .idealLedTimeout)
    | .bleakErr => (c, some .idealLedBleakError)

/-- The exit half of `Device.connect` (the `finally` block): decrement
`self._client_count`; when it reaches 0, clear `self._client` and close the
physical link. -/
def connect_exit (c : ConnState) : ConnState :=
  let n := c.client_count - 1
  if n = 0 then { client := false, client_count := n }
  else { c with client_count := n }

/-- The invariant of the connection manager: the count is nonnegative and the
link handle exists iff the count is positive. -/
def ConnInv (c : ConnState) : Prop :=
  0 ≤ c.client_count ∧ (c.client = true ↔ 0 < c.client_count)

instance (c : ConnState) : Decidable (ConnInv c) := by
  unfold ConnInv; infer_instance

/-- The state update at the end of `Device.send_command` after a successful
write: the two recognized light commands optimistically set `light_on`;
any other command leaves the state untouched. -/
def send_command_state_update (s : State) (cmd : String) : State :=
  if cmd = COMMAND_LIGHT_ON_HEX then { s with light_on := true }
  else if cmd = COMMAND_LIGHT_OFF_HEX then { s with light_on := false }
  else s

/-- `Device.send_command(cmd)` acting on the current state, given the write
outcome: transport failures are re-raised as the typed errors before any
state change (hex-parsing of `cmd` also happens before the write and so
cannot change state). -/
def send_command (s : State) (cmd : String) (w : LinkOutcome) :
    Except IdealLedErr State :=
  match w with
  | .ok => .ok (send_command_state_update s cmd)
  | .timeout => .error .idealLedTimeout
  | .bleakErr => .error .idealLedBleakError

/-- The state invariant the spec asserts for `State`: `dim_level` in
`[0, 100]` and `periodic_venting` in `[0, 60)`. -/
def StateInv (s : State) : Prop :=
  0 ≤ s.dim_level ∧ s.dim_level ≤ 100 ∧ 0 ≤ s.periodic_venting ∧ s.periodic_venting < 60

instance (s : State) : Decidable (StateInv s) := by
  unfold StateInv; infer_instance

/-! ### Helper lemmas about `pyInt` -/

theorem digit_bounds (c : Nat) (h : isDigit c = true) : 48 ≤ c ∧ c ≤ 57 := by
  simpa [isDigit, Bool.and_eq_true, decide_eq_true_eq] using h

theorem digit_not_ws (c : Nat) (h : isDigit c = true) : isPyWs c = false := by
  have hb := digit_bounds c h
  rw [Bool.eq_false_iff]
  intro hw
  simp only [isPyWs, Bool.or_eq_true, Bool.and_eq_true, decide_eq_true_eq, beq_iff_eq] at hw
  omega

theorem dropWhile_digits (l : List Nat) (h : l.all isDigit = true) :
    l.dropWhile isPyWs = l := by
  cases l with
  | nil => rfl
  | cons a t =>
    have ha : isDigit a = true := by
      have := (List.all_eq_true.mp h) a (by simp)
      simpa using this
    simp [List.dropWhile_cons, digit_not_ws a ha]

theorem all_digits_reverse (l : List Nat) (h : l.all isDigit = true) :
    l.reverse.all isDigit = true := by
  rw [List.all_eq_true] at h ⊢
  intro x hx
  exact h x (List.mem_reverse.mp hx)

theorem stripWs_digits (l : List Nat) (h : l.all isDigit = true) : stripWs l = l := by
  unfold stripWs
  rw [dropWhile_digits l h, dropWhile_digits l.reverse (all_digits_reverse l h),
    List.reverse_reverse]

theorem duOk_digits (l : List Nat) (hne : l ≠ []) (h : l.all isDigit = true) :
    duOk l = true := by
  have hall := List.all_eq_true.mp h
  obtain ⟨a, t, rfl⟩ := List.exists_cons_of_ne_nil hne
  have ha := digit_bounds a (by simpa using hall a (by simp))
  have hlast : ∀ x, (a :: t).getLast? = some x → x ≠ 95 := by
    intro x hx
    have hmem : x ∈ a :: t := by
      have := List.getLast?_eq_getLast (a :: t) (by simp)
      rw [this] at hx
      have := List.getLast_mem (l := a :: t) (by simp)
      simpa [Option.some_inj.mp hx] using this
    have := digit_bounds x (by simpa using hall x hmem)
    omega
  simp only [duOk, Bool.and_eq_true]
  refine ⟨⟨⟨⟨by simp, ?_⟩, ?_⟩, ?_⟩, ?_⟩
  · rw [List.all_eq_true]
    intro x hx
    simp [by simpa using hall x hx]
  · have : a ≠ 95 := by omega
    simp [this]
  · cases hg : (a :: t).getLast? with
    | none => simp at hg
    | some x => simpa using hlast x hg
  · rw [List.all_eq_true]
    intro p hp
    have h1 : p.1 ∈ a :: t := (List.of_mem_zip (by simpa using hp)).1
    have := digit_bounds p.1 (by simpa using hall p.1 h1)
    have : p.1 ≠ 95 := by omega
    simp [this]

theorem filter_digits (l : List Nat) (h : l.all isDigit = true) :
    l.filter (fun c => c != 95) = l := by
  rw [List.filter_eq_self]
  intro x hx
  have := digit_bounds x (by simpa using (List.all_eq_true.mp h) x hx)
  simp
  omega

theorem pyInt_digits (l : List Nat) (hne : l ≠ []) (h : l.all isDigit = true) :
    pyInt l = some ((digitsVal l : Nat) : Int) := by
  unfold pyInt
  rw [stripWs_digits l h]
  obtain ⟨a, t, rfl⟩ := List.exists_cons_of_ne_nil hne
  have ha := digit_bounds a (by simpa using (List.all_eq_true.mp h) a (by simp))
  have h43 : ¬ (a :: t).head? = some 43 := by simp; omega
  have h45 : ¬ (a :: t).head? = some 45 := by simp; omega
  rw [if_neg h43, if_neg h45]
  simp [duVal, duOk_digits _ hne h, filter_digits _ h]

theorem pyInt_single_nondigit (c : Nat) (hd : isDigit c = false) :
    pyInt [c] = none := by
  by_cases hw : isPyWs c = true
  · have h1 : List.dropWhile isPyWs [c] = [] := by simp [List.dropWhile_cons, hw]
    simp [pyInt, stripWs, h1, duVal, duOk]
  · have h1 : stripWs [c] = [c] := by
      have hw' : isPyWs c = false := by simpa using hw
      simp [stripWs, List.dropWhile_cons, hw']
    by_cases h43 : c = 43
    · subst h43; decide
    · by_cases h45 : c = 45
      · subst h45; decide
      · by_cases h95 : c = 95
        · subst h95; decide
        · simp [pyInt, h1, h43, h45, duVal, duOk, hd, h95]

/-- Shape of a successful advertisement decode: all accessed indices exist
and the result is the record built by `replace_from_manufacture_data`. -/
theorem replace_mfd_fields (s : State) (data : List Nat) (s2 : State)
    (hrep : s.replace_from_manufacture_data data = some s2) :
    ∃ d10 d13 d8 d9 d11 d14 : Nat,
      data[10]? = some d10 ∧ data[13]? = some d13 ∧ data[8]? = some d8 ∧
      data[9]? = some d9 ∧ data[11]? = some d11 ∧ data[14]? = some d14 ∧
      s2 = { s with
        fan_speed := (d8 : Int)
        after_cooking_fan_speed := (d9 : Int)
        light_on :=
          if _bittest d10 0 = true ∧ s.light_on = false ∧
              _range_check_dim (d13 : Int) s.dim_level < s.dim_level then false
          else _bittest d10 0
        after_cooking_on := _bittest d10 1
        periodic_venting_on := _bittest d10 2
        grease_filter_full := _bittest d11 0
        carbon_filter_full := _bittest d11 1
        carbon_filter_available := _bittest d11 2
        dim_level := _range_check_dim (d13 : Int) s.dim_level
        periodic_venting := _range_check_period (d14 : Int) s.periodic_venting } := by
  unfold State.replace_from_manufacture_data at hrep
  split at hrep
  case _ d10 d13 d8 d9 d11 d14 h10 h13 h8 h9 h11 h14 =>
    simp only [Option.some.injEq] at hrep
    exact ⟨d10, d13, d8, d9, d11, d14, h10, h13, h8, h9, h11, h14, hrep.symm⟩
  all_goals exact Option.noConfusion hrep

theorem pyDecodeAscii_eq (data d : List Nat) (h : pyDecodeAscii data = some d) :
    d = data ∧ data.all (fun c => c < 128) = true := by
  unfold pyDecodeAscii at h
  split at h
  · exact ⟨((Option.some.injEq _ _).mp h).symm, by assumption⟩
  · exact Option.noConfusion h

/-- Shape of a successful characteristic decode: the payload is ASCII, every
accessed index exists, the three embedded numerals parse, and the result is
the record built by `replace_from_tx_char`. -/
theorem replace_tx_fields (s : State) (databytes : List Nat) (s2 : State)
    (hrep : s.replace_from_tx_char databytes = some s2) :
    databytes.all (fun c => c < 128) = true ∧
    ∃ (c4 c5 c6 c7 c8 c9 : Nat) (fan dim pv : Int),
      databytes[4]? = some c4 ∧ databytes[5]? = some c5 ∧ databytes[6]? = some c6 ∧
      databytes[7]? = some c7 ∧ databytes[8]? = some c8 ∧ databytes[9]? = some c9 ∧
      pyInt [c4] = some fan ∧ pyInt (pySlice databytes 10 13) = some dim ∧
      pyInt (pySlice databytes 13 15) = some pv ∧
      s2 = { s with
        fan_speed := fan
        light_on := c5 == 76
        after_cooking_on := c6 == 78
        carbon_filter_available := c7 == 67
        grease_filter_full := c8 == 70
        carbon_filter_full := c9 == 75
        dim_level := _range_check_dim dim s.dim_level
        periodic_venting := _range_check_period pv s.periodic_venting } := by
  unfold State.replace_from_tx_char at hrep
  split at hrep
  case _ => exact Option.noConfusion hrep
  case _ d hasc =>
    obtain ⟨hdd, hall⟩ := pyDecodeAscii_eq databytes d hasc
    subst hdd
    refine ⟨hall, ?_⟩
    split at hrep
    case _ c4 c5 c6 c7 c8 c9 h4 h5 h6 h7 h8 h9 =>
      split at hrep
      case _ fan dim pv hfan hdim hpv =>
        simp only [Option.some.injEq] at hrep
        exact ⟨c4, c5, c6, c7, c8, c9, fan, dim, pv, h4, h5, h6, h7, h8, h9,
          hfan, hdim, hpv, hrep.symm⟩
      all_goals exact Option.noConfusion hrep
    all_goals exact Option.noConfusion hrep

theorem rc_dim_preserves (v fb : Int) (h0 : 0 ≤ fb) (h1 : fb ≤ 100) :
    0 ≤ _range_check_dim v fb ∧ _range_check_dim v fb ≤ 100 := by
  unfold _range_check_dim
  split <;> omega

theorem rc_period_preserves (v fb : Int) (h0 : 0 ≤ fb) (h1 : fb < 60) :
    0 ≤ _range_check_period v fb ∧ _range_check_period v fb < 60 := by
  unfold _range_check_period
  split <;> omega

/-! ### Claim theorems -/

/-- C1: `device_filter` returns true iff any one of the three conditions
holds independently — the fixed service UUID is in the advertised set, the
advertised name equals the fixed device name, or the manufacturer-data entry
for the fixed manufacturer identifier starts with the announce-prefix tail —
and returns false when none holds; concretely, a peripheral advertising the
name "IDEAL_LED" with no service UUIDs and no manufacturer data passes. -/
theorem C1_device_filter_disjunction :
    (∀ (d : BLEDevice) (a : AdvertisementData),
      device_filter d a =
        (decide (UUID_SERVICE ∈ a.service_uuids) ||
         decide (d.name = some DEVICE_NAME) ||
         (ANNOUNCE_TAG.drop 2).isPrefixOf
           (dictGet a.manufacturer_data ANNOUNCE_MANUFACTURER []))) ∧
    device_filter ⟨some "IDEAL_LED"⟩ ⟨[], []⟩ = true := by
  constructor
  · intro d a
    unfold device_filter
    by_cases h1 : UUID_SERVICE ∈ a.service_uuids <;>
      by_cases h2 : d.name = some DEVICE_NAME <;>
        by_cases h3 : (ANNOUNCE_TAG.drop 2).isPrefixOf
          (dictGet a.manufacturer_data ANNOUNCE_MANUFACTURER []) <;>
      simp [h1, h2, h3]
  · rfl

/-- C2: a characteristic payload whose first 4 bytes differ from the device
keycode is dropped: the callback signals the drop and the state is left
completely unchanged, with no exception-grade failure. -/
theorem C2_wrong_keycode_drops (keycode : List Nat) (s : State) (data : List Nat)
    (h : pySlice data 0 4 ≠ keycode) :
    characteristic_callback keycode s data = .dropped ∧
    charCbState keycode s data = s := by
  constructor
  · simp [characteristic_callback, h]
  · simp [charCbState, characteristic_callback, h]

/-- Witness for C2 at a concrete input. -/
theorem C2_wrong_keycode_drops_witness :
    pySlice [57, 57, 57, 57, 51] 0 4 ≠ [49, 50, 51, 52] ∧
    (characteristic_callback [49, 50, 51, 52] {} [57, 57, 57, 57, 51] = .dropped ∧
     charCbState [49, 50, 51, 52] {} [57, 57, 57, 57, 51] = ({} : State)) :=
  ⟨by decide, C2_wrong_keycode_drops [49, 50, 51, 52] {} [57, 57, 57, 57, 51] (by decide)⟩

/-- C6: a `send_command` whose write succeeds sets `light_on := true` for the
light-on command and `light_on := false` for the light-off command,
independent of the prior state, and leaves every other state field
unchanged for every command. -/
theorem C6_send_command_light (s : State) (cmd : String) :
    send_command s COMMAND_LIGHT_ON_HEX .ok = .ok { s with light_on := true } ∧
    send_command s COMMAND_LIGHT_OFF_HEX .ok = .ok { s with light_on := false } ∧
    (send_command_state_update s cmd).after_cooking_fan_speed = s.after_cooking_fan_speed ∧
    (send_command_state_update s cmd).after_cooking_on = s.after_cooking_on ∧
    (send_command_state_update s cmd).carbon_filter_available = s.carbon_filter_available ∧
    (send_command_state_update s cmd).fan_speed = s.fan_speed ∧
    (send_command_state_update s cmd).grease_filter_full = s.grease_filter_full ∧
    (send_command_state_update s cmd).carbon_filter_full = s.carbon_filter_full ∧
    (send_command_state_update s cmd).dim_level = s.dim_level ∧
    (send_command_state_update s cmd).periodic_venting = s.periodic_venting ∧
    (send_command_state_update s cmd).periodic_venting_on = s.periodic_venting_on ∧
    (send_command_state_update s cmd).rssi = s.rssi := by
  refine ⟨?_, ?_, ?_⟩
  · simp [send_command, send_command_state_update]
  · simp [send_command, send_command_state_update,
      COMMAND_LIGHT_ON_HEX, COMMAND_LIGHT_OFF_HEX]
  · unfold send_command_state_update
    split
    · exact ⟨rfl, rfl, rfl, rfl, rfl, rfl, rfl, rfl, rfl, rfl⟩
    · split
      · exact ⟨rfl, rfl, rfl, rfl, rfl, rfl, rfl, rfl, rfl, rfl⟩
      · exact ⟨rfl, rfl, rfl, rfl, rfl, rfl, rfl, rfl, rfl, rfl⟩

/-- C7: an acquire attempt from the disconnected state whose physical link
open times out raises the timeout classification (a constructor distinct from
the transport-error one) and leaves the bookkeeping untouched: no handle is
retained and the reference count is unchanged (so it stays 0). -/
theorem C7_connect_timeout (c : ConnState) (h : c.client = false) :
    connect_enter c .timeout = (c, some .idealLedTimeout) ∧
    (connect_enter c .timeout).1.client = false ∧
    (connect_enter c .timeout).1.client_count = c.client_count ∧
    IdealLedErr.idealLedTimeout ≠ IdealLedErr.idealLedBleakError := by
  refine ⟨?_, ?_, ?_, by decide⟩ <;> simp [connect_enter, h]

/-- Witness for C7 at a concrete disconnected instance. -/
theorem C7_connect_timeout_witness :
    (⟨false, 0⟩ : ConnState).client = false ∧
    connect_enter ⟨false, 0⟩ .timeout = (⟨false, 0⟩, some .idealLedTimeout) ∧
    (connect_enter ⟨false, 0⟩ .timeout).1.client_count = 0 :=
  ⟨rfl, (C7_connect_timeout ⟨false, 0⟩ rfl).1,
    (C7_connect_timeout ⟨false, 0⟩ rfl).2.2.1⟩

theorem connect_enter_connected (c : ConnState) (outcome : LinkOutcome)
    (h : c.client = true) :
    connect_enter c outcome = ({ c with client_count := c.client_count + 1 }, none) := by
  simp [connect_enter, h]

theorem connect_exit_count (c : ConnState) :
    (connect_exit c).client_count = c.client_count - 1 := by
  by_cases h : c.client_count - 1 = 0 <;> simp [connect_exit, h]

theorem connect_exit_client (c : ConnState) :
    (connect_exit c).client = if c.client_count - 1 = 0 then false else c.client := by
  by_cases h : c.client_count - 1 = 0 <;> simp [connect_exit, h]

theorem connect_enter_inv (c : ConnState) (outcome : LinkOutcome) (h : ConnInv c) :
    ConnInv (connect_enter c outcome).1 := by
  obtain ⟨cl, n⟩ := c
  obtain ⟨h0, hiff⟩ := h
  simp only at h0 hiff
  cases cl <;> cases outcome <;>
      simp_all [connect_enter, ConnInv] <;> omega

theorem connect_exit_inv (c : ConnState) (h : ConnInv c) (hpos : 0 < c.client_count) :
    ConnInv (connect_exit c) := by
  obtain ⟨cl, n⟩ := c
  obtain ⟨h0, hiff⟩ := h
  simp only at h0 hiff hpos
  have hcl : cl = true := hiff.mpr hpos
  subst hcl
  by_cases hn : n - 1 = 0 <;> (simp_all [connect_exit, ConnInv]; try omega)

/-- C8: the connection manager preserves "handle exists iff count > 0":
a successful first acquire creates the handle with count 1, a nested acquire
increments the count and reuses the handle, each release decrements the
count, the release reaching 0 destroys the handle (and only that one), and
both halves preserve the invariant. -/
theorem C8_refcount_invariant (c : ConnState) (outcome : LinkOutcome) :
    connect_enter ⟨false, 0⟩ .ok = (⟨true, 1⟩, none) ∧
    (c.client = true →
      connect_enter c outcome = ({ c with client_count := c.client_count + 1 }, none)) ∧
    (connect_exit c).client_count = c.client_count - 1 ∧
    (c.client_count - 1 = 0 → (connect_exit c).client = false) ∧
    (c.client_count - 1 ≠ 0 → (connect_exit c).client = c.client) ∧
    (ConnInv c → ConnInv (connect_enter c outcome).1) ∧
    (ConnInv c → 0 < c.client_count → ConnInv (connect_exit c)) := by
  refine ⟨by decide, fun h => connect_enter_connected c outcome h,
    connect_exit_count c, ?_, ?_, fun h => connect_enter_inv c outcome h,
    fun h hp => connect_exit_inv c h hp⟩
  · intro h
    rw [connect_exit_client c, if_pos h]
  · intro h
    rw [connect_exit_client c, if_neg h]

/-- Witness for C8 at a concrete connected instance with count 2. -/
theorem C8_refcount_invariant_witness :
    (⟨true, 2⟩ : ConnState).client = true ∧ ConnInv ⟨true, 2⟩ ∧
    0 < (⟨true, 2⟩ : ConnState).client_count ∧
    connect_enter ⟨true, 2⟩ .ok = (⟨true, 3⟩, none) ∧
    ConnInv (connect_exit ⟨true, 2⟩) :=
  ⟨rfl, by decide, by decide,
    (C8_refcount_invariant ⟨true, 2⟩ .ok).2.1 rfl,
    (C8_refcount_invariant ⟨true, 2⟩ .ok).2.2.2.2.2.2 (by decide) (by decide)⟩

/-- C3: for every advertisement payload and prior state, when the decoded
light bit is true, the prior `light_on` is false, and the decoded (range
validated) dim level is below the prior one, the resulting `light_on` is
false; in every other combination the decoded bit passes through. -/
theorem C3_light_override (s : State) (data : List Nat) (s2 : State) (d10 d13 : Nat)
    (h10 : data[10]? = some d10) (h13 : data[13]? = some d13)
    (hrep : s.replace_from_manufacture_data data = some s2) :
    s2.light_on =
      if _bittest d10 0 = true ∧ s.light_on = false ∧
          _range_check_dim (d13 : Int) s.dim_level < s.dim_level then false
      else _bittest d10 0 := by
  obtain ⟨e10, e13, e8, e9, e11, e14, g10, g13, g8, g9, g11, g14, hs⟩ :=
    replace_mfd_fields s data s2 hrep
  rw [h10] at g10
  rw [h13] at g13
  obtain rfl : d10 = e10 := by simpa using g10
  obtain rfl : d13 = e13 := by simpa using g13
  rw [hs]

/-- Witness for C3 at a concrete payload and prior state where the override
fires: decoded light bit on, prior light off, advertised dim 10 below the
prior dim 50, so the decoded bit is overridden to off. -/
theorem C3_light_override_witness :
    ([0, 0, 0, 0, 0, 0, 0, 0, 0, 0, 1, 0, 0, 10, 0] : List Nat)[10]? = some 1 ∧
    ([0, 0, 0, 0, 0, 0, 0, 0, 0, 0, 1, 0, 0, 10, 0] : List Nat)[13]? = some 10 ∧
    ({ light_on := false, dim_level := 50 } : State).replace_from_manufacture_data
        [0, 0, 0, 0, 0, 0, 0, 0, 0, 0, 1, 0, 0, 10, 0] = some { dim_level := 10 } ∧
    ({ dim_level := 10 } : State).light_on =
      (if _bittest 1 0 = true ∧ ({ light_on := false, dim_level := 50 } : State).light_on = false ∧
          _range_check_dim (10 : Int) ({ light_on := false, dim_level := 50 } : State).dim_level <
            ({ light_on := false, dim_level := 50 } : State).dim_level then false
        else _bittest 1 0) :=
  ⟨by decide, by decide, by decide,
    C3_light_override { light_on := false, dim_level := 50 }
      [0, 0, 0, 0, 0, 0, 0, 0, 0, 0, 1, 0, 0, 10, 0] { dim_level := 10 } 1 10
      (by decide) (by decide) (by decide)⟩

/-- C10: when the advertised dim byte is outside `[0, 100]`, the range check
makes the override comparison use the previous dim level, so the override
cannot fire and the decoded light bit passes through; conversely the
override can only change the bit when the dim byte is in range and strictly
below the prior dim level. -/
theorem C10_dim_fallback_blocks_override (s : State) (data : List Nat) (s2 : State)
    (d10 d13 : Nat) (h10 : data[10]? = some d10) (h13 : data[13]? = some d13)
    (hrep : s.replace_from_manufacture_data data = some s2) :
    (100 < d13 → s2.light_on = _bittest d10 0) ∧
    (s2.light_on ≠ _bittest d10 0 → d13 ≤ 100 ∧ (d13 : Int) < s.dim_level) := by
  obtain ⟨e10, e13, e8, e9, e11, e14, g10, g13, g8, g9, g11, g14, hs⟩ :=
    replace_mfd_fields s data s2 hrep
  rw [h10] at g10
  rw [h13] at g13
  obtain rfl : d10 = e10 := by simpa using g10
  obtain rfl : d13 = e13 := by simpa using g13
  rw [hs]
  constructor
  · intro hout
    have hrc : _range_check_dim (d13 : Int) s.dim_level = s.dim_level := by
      unfold _range_check_dim
      rw [if_neg]
      intro ⟨_, hle⟩
      have : (d13 : Int) ≤ (100 : Int) := hle
      omega
    simp only [hrc]
    rw [if_neg]
    intro ⟨_, _, hlt⟩
    omega
  · intro hne
    by_cases hcond : _bittest d10 0 = true ∧ s.light_on = false ∧
        _range_check_dim (d13 : Int) s.dim_level < s.dim_level
    · obtain ⟨hb, hl, hlt⟩ := hcond
      by_cases hin : 0 ≤ (d13 : Int) ∧ (d13 : Int) ≤ 100
      · have hrc : _range_check_dim (d13 : Int) s.dim_level = (d13 : Int) := by
          unfold _range_check_dim
          rw [if_pos hin]
        rw [hrc] at hlt
        have : d13 ≤ 100 := by omega
        exact ⟨this, hlt⟩
      · have hrc : _range_check_dim (d13 : Int) s.dim_level = s.dim_level := by
          unfold _range_check_dim
          rw [if_neg hin]
        rw [hrc] at hlt
        omega
    · rw [if_neg hcond] at hne
      simp at hne

/-- Witness for C10 at a concrete payload with dim byte 200 (out of range):
the decoded light bit (on) passes through with no override. -/
theorem C10_dim_fallback_blocks_override_witness :
    ([0, 0, 0, 0, 0, 0, 0, 0, 0, 0, 1, 0, 0, 200, 0] : List Nat)[10]? = some 1 ∧
    ([0, 0, 0, 0, 0, 0, 0, 0, 0, 0, 1, 0, 0, 200, 0] : List Nat)[13]? = some 200 ∧
    ({} : State).replace_from_manufacture_data
        [0, 0, 0, 0, 0, 0, 0, 0, 0, 0, 1, 0, 0, 200, 0] = some { light_on := true } ∧
    100 < 200 ∧ ({ light_on := true } : State).light_on = _bittest 1 0 :=
  ⟨by decide, by decide, by decide, by decide,
    (C10_dim_fallback_blocks_override {}
      [0, 0, 0, 0, 0, 0, 0, 0, 0, 0, 1, 0, 0, 200, 0] { light_on := true } 1 200
      (by decide) (by decide) (by decide)).1 (by decide)⟩

/-- C4: starting from a state with `dim_level` in `[0, 100]` and
`periodic_venting` in `[0, 60)`, both update operations keep those fields in
range, and an out-of-range decoded value is silently discarded: the range
check returns the prior field value exactly, never an error. -/
theorem C4_range_invariant (s : State) (data : List Nat) (s2 : State) (v : Int) :
    (StateInv s → s.replace_from_tx_char data = some s2 → StateInv s2) ∧
    (StateInv s → s.replace_from_manufacture_data data = some s2 → StateInv s2) ∧
    (¬(0 ≤ v ∧ v ≤ 100) → _range_check_dim v s.dim_level = s.dim_level) ∧
    (¬(0 ≤ v ∧ v < 60) → _range_check_period v s.periodic_venting = s.periodic_venting) := by
  refine ⟨?_, ?_, ?_, ?_⟩
  · rintro ⟨hd0, hd1, hp0, hp1⟩ hrep
    obtain ⟨-, c4, c5, c6, c7, c8, c9, fan, dim, pv, -, -, -, -, -, -, -, -, -, hs⟩ :=
      replace_tx_fields s data s2 hrep
    subst hs
    exact ⟨(rc_dim_preserves dim s.dim_level hd0 hd1).1,
      (rc_dim_preserves dim s.dim_level hd0 hd1).2,
      (rc_period_preserves pv s.periodic_venting hp0 hp1).1,
      (rc_period_preserves pv s.periodic_venting hp0 hp1).2⟩
  · rintro ⟨hd0, hd1, hp0, hp1⟩ hrep
    obtain ⟨d10, d13, d8, d9, d11, d14, -, -, -, -, -, -, hs⟩ :=
      replace_mfd_fields s data s2 hrep
    subst hs
    exact ⟨(rc_dim_preserves (d13 : Int) s.dim_level hd0 hd1).1,
      (rc_dim_preserves (d13 : Int) s.dim_level hd0 hd1).2,
      (rc_period_preserves (d14 : Int) s.periodic_venting hp0 hp1).1,
      (rc_period_preserves (d14 : Int) s.periodic_venting hp0 hp1).2⟩
  · intro h
    unfold _range_check_dim
    rw [if_neg h]
  · intro h
    unfold _range_check_period
    rw [if_neg h]

/-- Witness for C4 at a concrete characteristic payload whose embedded dim
numeral "999" is out of range: the field falls back to the prior value 0 and
the invariant holds on the result. -/
theorem C4_range_invariant_witness :
    StateInv ({} : State) ∧
    ({} : State).replace_from_tx_char
        [49, 50, 51, 52, 51, 76, 78, 67, 70, 75, 57, 57, 57, 50, 53] =
      some { light_on := true, after_cooking_on := true, carbon_filter_available := true,
             fan_speed := 3, grease_filter_full := true, carbon_filter_full := true,
             dim_level := 0, periodic_venting := 25 } ∧
    StateInv { light_on := true, after_cooking_on := true, carbon_filter_available := true,
               fan_speed := 3, grease_filter_full := true, carbon_filter_full := true,
               dim_level := 0, periodic_venting := 25 } :=
  ⟨by decide, by decide,
    (C4_range_invariant {} [49, 50, 51, 52, 51, 76, 78, 67, 70, 75, 57, 57, 57, 50, 53]
        { light_on := true, after_cooking_on := true, carbon_filter_available := true,
          fan_speed := 3, grease_filter_full := true, carbon_filter_full := true,
          dim_level := 0, periodic_venting := 25 } 0).1 (by decide) (by decide)⟩

/-- C5: a characteristic payload with correct keycode and a non-digit at the
fan-speed position (byte 4) makes the update raise a decode-format failure to
its caller, leaving the state — `fan_speed` included — unchanged. -/
theorem C5_nondigit_fan_raises (keycode : List Nat) (s : State) (data : List Nat)
    (c : Nat) (hk : pySlice data 0 4 = keycode) (h4 : data[4]? = some c)
    (hd : isDigit c = false) :
    characteristic_callback keycode s data = .raised ∧
    charCbState keycode s data = s := by
  have hnone : s.replace_from_tx_char data = none := by
    cases hres : s.replace_from_tx_char data with
    | none => rfl
    | some s2 =>
      obtain ⟨-, c4, c5, c6, c7, c8, c9, fan, dim, pv, h4', -, -, -, -, -, hfan, -, -, -⟩ :=
        replace_tx_fields s data s2 hres
      rw [h4] at h4'
      obtain rfl : c = c4 := by simpa using h4'
      rw [pyInt_single_nondigit c hd] at hfan
      exact Option.noConfusion hfan
  constructor
  · simp [characteristic_callback, hk, hnone]
  · simp [charCbState, characteristic_callback, hk, hnone]

/-- Witness for C5 at a concrete payload: keycode "1234" followed by the
letter 'A' in the fan-speed position. -/
theorem C5_nondigit_fan_raises_witness :
    pySlice [49, 50, 51, 52, 65] 0 4 = [49, 50, 51, 52] ∧
    ([49, 50, 51, 52, 65] : List Nat)[4]? = some 65 ∧ isDigit 65 = false ∧
    (characteristic_callback [49, 50, 51, 52] {} [49, 50, 51, 52, 65] = .raised ∧
     charCbState [49, 50, 51, 52] {} [49, 50, 51, 52, 65] = ({} : State)) :=
  ⟨by decide, by decide, by decide,
    C5_nondigit_fan_raises [49, 50, 51, 52] {} [49, 50, 51, 52, 65] 65
      (by decide) (by decide) (by decide)⟩

/-- C9: for every well-formed characteristic payload with correct keycode
(ASCII bytes, at least 15 long, digits in the numeric positions), the decode
follows the fixed layout: byte 4 is the fan-speed digit; byte 5 sets
`light_on` iff it is 'L'; bytes 6-9 set `after_cooking_on`,
`carbon_filter_available`, `grease_filter_full`, `carbon_filter_full` iff
they equal 'N', 'C', 'F', 'K'; bytes 10-12 are a 3-digit decimal dim level
range-validated into `[0, 100]` with fallback; bytes 13-14 are a 2-digit
decimal periodic venting range-validated into `[0, 60)` with fallback; and
`after_cooking_fan_speed`, `periodic_venting_on` and `rssi` are left
unchanged (the result record keeps them from the prior state). -/
theorem C9_tx_layout (s : State)
    (k0 k1 k2 k3 c4 c5 c6 c7 c8 c9 c10 c11 c12 c13 c14 : Nat) (rest : List Nat)
    (hall : ([k0, k1, k2, k3, c4, c5, c6, c7, c8, c9, c10, c11, c12, c13, c14] ++ rest).all
      (fun c => c < 128) = true)
    (h4 : isDigit c4 = true) (h10 : isDigit c10 = true) (h11 : isDigit c11 = true)
    (h12 : isDigit c12 = true) (h13 : isDigit c13 = true) (h14 : isDigit c14 = true) :
    characteristic_callback [k0, k1, k2, k3] s
        ([k0, k1, k2, k3, c4, c5, c6, c7, c8, c9, c10, c11, c12, c13, c14] ++ rest) =
      .updated { s with
        fan_speed := ((c4 - 48 : Nat) : Int)
        light_on := c5 == 76
        after_cooking_on := c6 == 78
        carbon_filter_available := c7 == 67
        grease_filter_full := c8 == 70
        carbon_filter_full := c9 == 75
        dim_level := _range_check_dim
          ((100 * (c10 - 48) + 10 * (c11 - 48) + (c12 - 48) : Nat) : Int) s.dim_level
        periodic_venting := _range_check_period
          ((10 * (c13 - 48) + (c14 - 48) : Nat) : Int) s.periodic_venting } := by
  have d1 : digitsVal [c4] = c4 - 48 := by
    simp [digitsVal]
  have d2 : digitsVal [c10, c11, c12] = 100 * (c10 - 48) + 10 * (c11 - 48) + (c12 - 48) := by
    simp only [digitsVal, List.foldl]
    ring
  have d3 : digitsVal [c13, c14] = 10 * (c13 - 48) + (c14 - 48) := by
    simp only [digitsVal, List.foldl]
    ring
  have e4 : pyInt [c4] = some ((c4 - 48 : Nat) : Int) := by
    rw [pyInt_digits [c4] (by simp) (by simp [h4]), d1]
  have e10 : pyInt [c10, c11, c12] =
      some ((100 * (c10 - 48) + 10 * (c11 - 48) + (c12 - 48) : Nat) : Int) := by
    rw [pyInt_digits [c10, c11, c12] (by simp) (by simp [h10, h11, h12]), d2]
  have e13 : pyInt [c13, c14] = some ((10 * (c13 - 48) + (c14 - 48) : Nat) : Int) := by
    rw [pyInt_digits [c13, c14] (by simp) (by simp [h13, h14]), d3]
  have hdec : pyDecodeAscii
      ([k0, k1, k2, k3, c4, c5, c6, c7, c8, c9, c10, c11, c12, c13, c14] ++ rest) =
      some ([k0, k1, k2, k3, c4, c5, c6, c7, c8, c9, c10, c11, c12, c13, c14] ++ rest) := by
    unfold pyDecodeAscii
    rw [if_pos hall]
  have hk : pySlice
      ([k0, k1, k2, k3, c4, c5, c6, c7, c8, c9, c10, c11, c12, c13, c14] ++ rest) 0 4 =
      [k0, k1, k2, k3] := rfl
  have g4 : ([k0, k1, k2, k3, c4, c5, c6, c7, c8, c9, c10, c11, c12, c13, c14] ++ rest)[4]? =
      some c4 := rfl
  have g5 : ([k0, k1, k2, k3, c4, c5, c6, c7, c8, c9, c10, c11, c12, c13, c14] ++ rest)[5]? =
      some c5 := rfl
  have g6 : ([k0, k1, k2, k3, c4, c5, c6, c7, c8, c9, c10, c11, c12, c13, c14] ++ rest)[6]? =
      some c6 := rfl
  have g7 : ([k0, k1, k2, k3, c4, c5, c6, c7, c8, c9, c10, c11, c12, c13, c14] ++ rest)[7]? =
      some c7 := rfl
  have g8 : ([k0, k1, k2, k3, c4, c5, c6, c7, c8, c9, c10, c11, c12, c13, c14] ++ rest)[8]? =
      some c8 := rfl
  have g9 : ([k0, k1, k2, k3, c4, c5, c6, c7, c8, c9, c10, c11, c12, c13, c14] ++ rest)[9]? =
      some c9 := rfl
  have gs1 : pySlice
      ([k0, k1, k2, k3, c4, c5, c6, c7, c8, c9, c10, c11, c12, c13, c14] ++ rest) 10 13 =
      [c10, c11, c12] := rfl
  have gs2 : pySlice
      ([k0, k1, k2, k3, c4, c5, c6, c7, c8, c9, c10, c11, c12, c13, c14] ++ rest) 13 15 =
      [c13, c14] := rfl
  simp only [characteristic_callback, hk]
  rw [if_neg (not_not_intro rfl)]
  simp only [State.replace_from_tx_char, hdec, g4, g5, g6, g7, g8, g9, gs1, gs2,
    e4, e10, e13]

/-- Witness for C9 at the concrete payload "1234" ++ "3LNCFK09925". -/
theorem C9_tx_layout_witness :
    ([49, 50, 51, 52, 51, 76, 78, 67, 70, 75, 48, 57, 57, 50, 53] ++ ([] : List Nat)).all
      (fun c => c < 128) = true ∧
    isDigit 51 = true ∧ isDigit 48 = true ∧ isDigit 57 = true ∧
    isDigit 50 = true ∧ isDigit 53 = true ∧
    characteristic_callback [49, 50, 51, 52] {}
        ([49, 50, 51, 52, 51, 76, 78, 67, 70, 75, 48, 57, 57, 50, 53] ++ []) =
      .updated { light_on := true, after_cooking_on := true, carbon_filter_available := true,
                 fan_speed := 3, grease_filter_full := true, carbon_filter_full := true,
                 dim_level := 99, periodic_venting := 25 } :=
  ⟨by decide, by decide, by decide, by decide, by decide, by decide,
    C9_tx_layout {} 49 50 51 52 51 76 78 67 70 75 48 57 57 50 53 []
      (by decide) (by decide) (by decide) (by decide) (by decide) (by decide) (by decide)⟩

end IdealLed
